import Mathlib

/-!
Verification of the capacitive-touch sensing loop of
src/CapacitiveTouchExample/captouch.c (MSP430G2553, pin-oscillator method).

The target is a 16-bit microcontroller: the C types unsigned int and int
are 16 bits wide, so unsigned arithmetic wraps modulo 2^16 and the signed
delta is the two's-complement reading of that 16-bit value.  All machine
arithmetic below is embedded on Nat/Int with explicit reductions mod 65536.
-/

namespace CapTouch

/-- Threshold for a key press (captouch.c line 47, KEY_LVL). -/
def KEY_LVL : Int := 220

/-- Two's-complement reading of a 16-bit unsigned value as a signed int,
as the MSP430 C compiler does when an unsigned int is stored into an int. -/
def toInt16 (n : Nat) : Int :=
  if n % 65536 < 32768 then ((n % 65536 : Nat) : Int)
  else ((n % 65536 : Nat) : Int) - 65536

/-- 16-bit unsigned subtraction, wrapping modulo 2^16 (C unsigned int on MSP430). -/
def usub16 (a b : Nat) : Nat :=
  (a % 65536 + (65536 - b % 65536)) % 65536

/-- Value stored into the global int delta_cnt by line 87,
delta_cnt = base_cnt - meas_cnt: the unsigned 16-bit difference reinterpreted
as a signed 16-bit integer. -/
def delta_cnt (b r : Nat) : Int := toInt16 (usub16 b r)

/-- Baseline update of lines 91-93: if the delta is negative the baseline
becomes (base_cnt + meas_cnt) >> 1, computed in 16-bit unsigned arithmetic;
otherwise it is unchanged. -/
def adjusted_base (b meas : Nat) : Nat :=
  if delta_cnt b meas < 0 then Nat.shiftRight ((b + meas) % 65536) 1 else b

/-- One cycle's effect on the baseline, with the raw measurement value
truncated to the 16-bit register width of TACCR1. -/
def baseStep (b raw : Nat) : Nat := adjusted_base b (raw % 65536)

/-- DIVA_0 divider bits for BCSCTL1 (ACLK/1, the fast sampling setting). -/
def DIVA_0 : Nat := 0x00

/-- DIVA_3 divider bits for BCSCTL1 (ACLK/8, the slow sampling setting). -/
def DIVA_3 : Nat := 0x30

/-- The DIVA field (bits 4 and 5) of a BCSCTL1 register value. -/
def diva (x : Nat) : Nat := x &&& 0x30

/-- Global program state touched by one iteration of the while loop in main
(captouch.c lines 84-111): the globals base_cnt, meas_cnt, delta_cnt,
key_pressed and cycles, plus the BCSCTL1 clock register that selects the
sampling interval. -/
structure SensorState where
  base_cnt : Nat
  meas_cnt : Nat
  delta_cnt : Int
  key_pressed : Bool
  cycles : Int
  bcsctl1 : Nat
deriving DecidableEq

/-- One iteration of the measurement loop (captouch.c lines 85-108), given the
raw oscillation count captured from TACCR1 for this cycle.  Translates, in
order: the delta computation (line 87), the baseline adjustment on a negative
delta (lines 91-93), the threshold decision (lines 94-97) and the sample-rate
selection (lines 100-108), including the post-decrement semantics of
cycles-- and the clamp of cycles at zero. -/
def cycleStep (s : SensorState) (raw : Nat) : SensorState :=
  let meas := raw % 65536
  let d := delta_cnt s.base_cnt meas
  let base1 := adjusted_base s.base_cnt meas
  let kp : Bool := decide (KEY_LVL < d)
  let cyc : Int := if KEY_LVL < d then 20 else if s.cycles = 0 then 0 else s.cycles - 1
  let bcs : Nat :=
    if KEY_LVL < d then (s.bcsctl1 &&& 0xCF) + DIVA_0
    else if s.cycles = 0 then (s.bcsctl1 &&& 0xCF) + DIVA_3
    else s.bcsctl1
  { base_cnt := base1, meas_cnt := meas, delta_cnt := d,
    key_pressed := kp, cycles := cyc, bcsctl1 := bcs }

/-- Iterating the measurement loop over a list of raw counts. -/
def runCycles (s : SensorState) (rs : List Nat) : SensorState :=
  rs.foldl cycleStep s

/-- Iterating the baseline update alone over a list of raw counts. -/
def runBaseline (b : Nat) (rs : List Nat) : Nat :=
  rs.foldl baseStep b

/-- True when no cycle of the run asserts key_pressed. -/
def allNotTouched : SensorState → List Nat → Bool
  | _, [] => true
  | s, r :: rs => (!(cycleStep s r).key_pressed) && allNotTouched (cycleStep s r) rs

/-- Drift-only side condition on a run of raw counts: every sample is at
least the baseline current when it is taken, and each baseline-plus-sample
stays inside the 16-bit range. -/
def driftOnlyB : Nat → List Nat → Bool
  | _, [] => true
  | b, r :: rs => (decide (b ≤ r) && decide (b + r < 65536)) && driftOnlyB (baseStep b r) rs

/-- The accumulation loop of get_base_count (captouch.c lines 117-121):
sixteen measurements are summed into the 16-bit unsigned global base_cnt,
wrapping modulo 2^16; f k is the raw count of the k-th measurement,
truncated to the 16-bit register width. -/
def base_sum (f : Nat → Nat) : Nat :=
  (List.range 16).foldl (fun acc k => (acc + f k % 65536) % 65536) 0

/-- get_base_count (captouch.c lines 114-123): sum sixteen measurements and
shift right by 4. -/
def get_base_count (f : Nat → Nat) : Nat :=
  Nat.shiftRight (base_sum f) 4

/-- Program state at entry to the while loop in main: base_cnt holds the
value produced by get_base_count, the global int cycles was declared with
value 0 (line 66), delta_cnt is a zero-valued global, meas_cnt holds the
last measurement of the baseline acquisition, and BCSCTL1 holds whatever
the clock setup left there. -/
def initialState (f : Nat → Nat) (bcs : Nat) : SensorState :=
  { base_cnt := get_base_count f, meas_cnt := f 15 % 65536, delta_cnt := 0,
    key_pressed := false, cycles := 0, bcsctl1 := bcs }

/-- A concrete measurement sequence used to exercise get_base_count. -/
def sampleF (k : Nat) : Nat := 100 + k

/-- A constant measurement sequence used to exercise the start-up path. -/
def constF500 (_ : Nat) : Nat := 500

/-- Watchdog password byte (MSP430 header value). -/
def WDTPW : Nat := 0x5A00

/-- Watchdog hold bit: writing WDTPW + WDTHOLD stops the watchdog timer. -/
def WDTHOLD : Nat := 0x0080

/-- WDT gate setting for a measurement, WDT_MDLY_0_5 = SMCLK/512
(captouch.c line 42 via line 56). -/
def WDT_meas_setting : Nat := 0x5A1B

/-- Timer_A clock-source and mode bits TASSEL_3 + MC_2: INCLK from the pin
oscillator, continuous count mode (captouch.c line 127). -/
def TASSEL_3 : Nat := 0x0300

/-- Timer_A continuous mode bits. -/
def MC_2 : Nat := 0x0020

/-- Capture on both edges (TA0CCTL1 bits). -/
def CM_3 : Nat := 0xC000

/-- Capture input select GND (TA0CCTL1 bits). -/
def CCIS_2 : Nat := 0x2000

/-- Capture mode bit (TA0CCTL1). -/
def CAP : Nat := 0x0100

/-- Timer_A clear bit: setting it resets TAR to zero. -/
def TACLR : Nat := 0x0004

/-- Capture-input select toggle bit (TA0CCTL1). -/
def CCIS0 : Nat := 0x1000

/-- The touch input pin bit, BIT0 of port 2 (captouch.c line 38). -/
def TOUCHPIN : Nat := 1

/-- The peripheral registers written by measure_count, together with the
global meas_cnt it stores the captured count into.  Port registers are
8 bits wide, timer and watchdog registers 16 bits. -/
structure Regs where
  ta0ctl : Nat
  ta0cctl1 : Nat
  p2dir : Nat
  p2sel : Nat
  p2sel2 : Nat
  wdtctl : Nat
  meas_cnt : Nat
deriving DecidableEq

/-- Register effect of one call to measure_count (captouch.c lines 125-145),
in program order.  The value captured from TACCR1 when the gate interrupt
fires is supplied as the parameter captured (a 16-bit register).  The C
expression x &= ~pin on an 8-bit register is x &&& (255 ^^^ pin) for an
8-bit pin value. -/
def measure_count (h : Regs) (pin captured : Nat) : Regs :=
  let p := pin % 256
  let h1 := { h with ta0ctl := TASSEL_3 + MC_2 }
  let h2 := { h1 with ta0cctl1 := CM_3 + CCIS_2 + CAP }
  let h3 := { h2 with p2dir := h2.p2dir &&& (255 ^^^ p) }
  let h4 := { h3 with p2sel := h3.p2sel &&& (255 ^^^ p) }
  let h5 := { h4 with p2sel2 := (h4.p2sel2 ||| p) % 256 }
  let h6 := { h5 with wdtctl := WDT_meas_setting }
  let h7 := { h6 with ta0ctl := h6.ta0ctl ||| TACLR }
  let h8 := { h7 with ta0cctl1 := h7.ta0cctl1 ^^^ CCIS0 }
  let h9 := { h8 with meas_cnt := captured % 65536 }
  let h10 := { h9 with wdtctl := WDTPW + WDTHOLD }
  { h10 with p2sel2 := h10.p2sel2 &&& (255 ^^^ p) }

/-- The observable actions of measure_count, used to reason about their
order within one call. -/
inductive MeasureEvent where
  | configTimer
  | configCapture
  | clearPinDir
  | clearPinSel
  | enablePinOsc
  | startGateWDT
  | resetTimerA
  | lpmWait
  | toggleCaptureInput
  | captureCount
  | stopWDT
  | disablePinOsc
deriving DecidableEq

/-- The actions of measure_count in the order the source performs them
(captouch.c lines 127-144). -/
def measure_count_trace : List MeasureEvent :=
  [MeasureEvent.configTimer, MeasureEvent.configCapture,
   MeasureEvent.clearPinDir, MeasureEvent.clearPinSel,
   MeasureEvent.enablePinOsc, MeasureEvent.startGateWDT,
   MeasureEvent.resetTimerA, MeasureEvent.lpmWait,
   MeasureEvent.toggleCaptureInput, MeasureEvent.captureCount,
   MeasureEvent.stopWDT, MeasureEvent.disablePinOsc]

/-- Recognizes the event that starts the watchdog gate timer (line 138). -/
def isGateStart : MeasureEvent → Bool
  | MeasureEvent.startGateWDT => true
  | _ => false

/-- Recognizes the event that resets the Timer_A counter to zero (line 139). -/
def isTimerReset : MeasureEvent → Bool
  | MeasureEvent.resetTimerA => true
  | _ => false

/-- Recognizes the low-power wait for the gate interrupt (line 140). -/
def isGateWait : MeasureEvent → Bool
  | MeasureEvent.lpmWait => true
  | _ => false

/-- Recognizes the capture of TACCR1 into meas_cnt (line 142). -/
def isCapture : MeasureEvent → Bool
  | MeasureEvent.captureCount => true
  | _ => false

/-! Helper lemmas about the embedded operations. -/

lemma cycleStep_base (s : SensorState) (raw : Nat) :
    (cycleStep s raw).base_cnt = baseStep s.base_cnt raw := rfl

lemma cycleStep_delta (s : SensorState) (raw : Nat) :
    (cycleStep s raw).delta_cnt = delta_cnt s.base_cnt (raw % 65536) := rfl

lemma cycleStep_kp (s : SensorState) (raw : Nat) :
    (cycleStep s raw).key_pressed
      = decide (KEY_LVL < delta_cnt s.base_cnt (raw % 65536)) := rfl

lemma cycleStep_touched (s : SensorState) (raw : Nat)
    (h : KEY_LVL < delta_cnt s.base_cnt (raw % 65536)) :
    (cycleStep s raw).cycles = 20
      ∧ (cycleStep s raw).bcsctl1 = (s.bcsctl1 &&& 0xCF) + DIVA_0 := by
  unfold cycleStep
  simp [h]

lemma cycleStep_idle_pos (s : SensorState) (raw : Nat)
    (h : ¬ KEY_LVL < delta_cnt s.base_cnt (raw % 65536)) (hc : s.cycles ≠ 0) :
    (cycleStep s raw).cycles = s.cycles - 1
      ∧ (cycleStep s raw).bcsctl1 = s.bcsctl1 := by
  unfold cycleStep
  simp [h, hc]

lemma cycleStep_idle_zero (s : SensorState) (raw : Nat)
    (h : ¬ KEY_LVL < delta_cnt s.base_cnt (raw % 65536)) (hc : s.cycles = 0) :
    (cycleStep s raw).cycles = 0
      ∧ (cycleStep s raw).bcsctl1 = (s.bcsctl1 &&& 0xCF) + DIVA_3 := by
  unfold cycleStep
  simp [h, hc]

lemma land_207_48 : (207 : Nat) &&& 48 = 0 := by decide

lemma bcs_fast_diva (x : Nat) : diva ((x &&& 0xCF) + DIVA_0) = 0 := by
  unfold diva DIVA_0
  rw [Nat.add_zero, Nat.land_assoc, land_207_48]
  simp

set_option maxRecDepth 8000 in
lemma add_48_land (y : Nat) (hy : y < 256) (h0 : y &&& 48 = 0) :
    (y + 48) &&& 48 = 48 := by
  revert h0
  revert hy
  revert y
  decide

lemma bcs_slow_diva (x : Nat) : diva ((x &&& 0xCF) + DIVA_3) = 0x30 := by
  have hy : (x &&& 0xCF) &&& 0x30 = 0 := by
    rw [Nat.land_assoc, land_207_48]
    simp
  have hlt : x &&& 0xCF < 256 :=
    lt_of_le_of_lt (Nat.and_le_right) (by norm_num)
  exact add_48_land (x &&& 0xCF) hlt hy

lemma shiftRight_one_eq (n : Nat) : Nat.shiftRight n 1 = n / 2 := rfl

lemma adjusted_base_le (b r : Nat) (hbr : b ≤ r) (hsum : b + r < 65536) :
    b ≤ adjusted_base b r := by
  unfold adjusted_base
  by_cases hd : delta_cnt b r < 0
  · rw [if_pos hd, Nat.mod_eq_of_lt hsum, shiftRight_one_eq]
    omega
  · rw [if_neg hd]

/-! C1: the touch decision. -/

/-- C1: each cycle asserts TouchState exactly when the delta computed from
the pre-adjustment baseline exceeds KEY_LVL = 220; with baseline 500, a raw
count of 250 gives delta 250 and a touch, a raw count of 400 gives delta 100
and no touch. -/
theorem c1_touch_decision :
    KEY_LVL = 220
    ∧ (∀ (s : SensorState) (raw : Nat),
        ((cycleStep s raw).key_pressed = true
            ↔ KEY_LVL < delta_cnt s.base_cnt (raw % 65536))
        ∧ (cycleStep s raw).delta_cnt = delta_cnt s.base_cnt (raw % 65536))
    ∧ delta_cnt 500 250 = 250
    ∧ (cycleStep ⟨500, 0, 0, false, 0, 0⟩ 250).key_pressed = true
    ∧ delta_cnt 500 400 = 100
    ∧ (cycleStep ⟨500, 0, 0, false, 0, 0⟩ 400).key_pressed = false := by
  refine ⟨rfl, fun s raw => ⟨?_, rfl⟩, by decide, by decide, by decide, by decide⟩
  rw [cycleStep_kp]
  exact decide_eq_true_iff

/-- C1 instantiated at a concrete state and raw count. -/
theorem c1_witness :
    (cycleStep ⟨500, 0, 0, false, 0, 0⟩ 250).key_pressed = true
      ↔ KEY_LVL < delta_cnt 500 (250 % 65536) :=
  (c1_touch_decision.2.1 ⟨500, 0, 0, false, 0, 0⟩ 250).1

/-! C2: the baseline adjustment on a negative delta. -/

/-- C2 fails as stated: with baseline 40000 and raw count 50000 the delta is
negative, but the 16-bit sum wraps, so the new baseline is 12232 and not the
average 45000 of the two values. -/
theorem c2_counterexample :
    delta_cnt 40000 50000 < 0
    ∧ (cycleStep ⟨40000, 0, 0, false, 0, 0⟩ 50000).base_cnt = 12232
    ∧ Nat.shiftRight (40000 + 50000) 1 = 45000
    ∧ (12232 : Nat) ≠ 45000 := by decide

/-- C2 (amended): on a negative delta the new baseline is the wrapped 16-bit
sum shifted right by one, which is the true average whenever the sum fits in
16 bits; on a non-negative delta the baseline is unchanged; with baseline 500
and raw count 600 the new baseline is 550 and no touch is reported. -/
theorem c2_baseline_adjust (s : SensorState) (raw : Nat) (hr : raw < 65536) :
    (delta_cnt s.base_cnt raw < 0 →
        (cycleStep s raw).base_cnt = Nat.shiftRight ((s.base_cnt + raw) % 65536) 1)
    ∧ (0 ≤ delta_cnt s.base_cnt raw → (cycleStep s raw).base_cnt = s.base_cnt)
    ∧ (s.base_cnt + raw < 65536 → delta_cnt s.base_cnt raw < 0 →
        (cycleStep s raw).base_cnt = Nat.shiftRight (s.base_cnt + raw) 1)
    ∧ (cycleStep ⟨500, 0, 0, false, 0, 0⟩ 600).base_cnt = 550
    ∧ (cycleStep ⟨500, 0, 0, false, 0, 0⟩ 600).key_pressed = false := by
  have hmod : raw % 65536 = raw := Nat.mod_eq_of_lt hr
  refine ⟨?_, ?_, ?_, by decide, by decide⟩
  · intro h
    rw [cycleStep_base]
    unfold baseStep adjusted_base
    rw [hmod, if_pos h]
  · intro h
    rw [cycleStep_base]
    unfold baseStep adjusted_base
    rw [hmod, if_neg (not_lt.mpr h)]
  · intro hsum h
    rw [cycleStep_base]
    unfold baseStep adjusted_base
    rw [hmod, if_pos h, Nat.mod_eq_of_lt hsum]

/-- C2 (amended) instantiated at baseline 500 and raw count 600. -/
theorem c2_witness :
    (cycleStep ⟨500, 0, 0, false, 0, 0⟩ 600).base_cnt
        = Nat.shiftRight ((500 + 600) % 65536) 1
    ∧ (cycleStep ⟨500, 0, 0, false, 0, 0⟩ 600).base_cnt
        = Nat.shiftRight (500 + 600) 1
    ∧ (cycleStep ⟨500, 0, 0, false, 0, 0⟩ 600).base_cnt = 550
    ∧ (cycleStep ⟨500, 0, 0, false, 0, 0⟩ 600).key_pressed = false := by
  have h := c2_baseline_adjust ⟨500, 0, 0, false, 0, 0⟩ 600 (by decide)
  exact ⟨h.1 (by decide), h.2.2.1 (by decide) (by decide), h.2.2.2.1, h.2.2.2.2⟩

/-! C3: monotonicity of the drift correction. -/

/-- C3 fails as stated: with baseline 33000 and raw count 35000 (a sample
above the baseline, as in the claimed run condition) the 16-bit sum wraps and
the adjusted baseline drops from 33000 to 1232. -/
theorem c3_counterexample :
    (33000 : Nat) ≤ 35000
    ∧ delta_cnt 33000 35000 < 0
    ∧ (cycleStep ⟨33000, 0, 0, false, 0, 0⟩ 35000).base_cnt = 1232
    ∧ (1232 : Nat) < 33000 := by decide

/-- C3 (amended): the adjustment step never lowers the baseline provided the
sample is at least the baseline and their sum fits in 16 bits, and the
baseline is non-decreasing across any run in which every sample satisfies
those two conditions against the baseline current when it is taken. -/
theorem c3_baseline_monotone :
    (∀ b r : Nat, b ≤ r → b + r < 65536 → b ≤ adjusted_base b r)
    ∧ (∀ (b : Nat) (rs : List Nat), driftOnlyB b rs = true → b ≤ runBaseline b rs)
    ∧ (∀ (s : SensorState) (raw : Nat),
        s.base_cnt ≤ raw → s.base_cnt + raw < 65536 →
        s.base_cnt ≤ (cycleStep s raw).base_cnt) := by
  have hrun : ∀ (rs : List Nat) (b : Nat),
      driftOnlyB b rs = true → b ≤ runBaseline b rs := by
    intro rs
    induction rs with
    | nil => intro b _; exact le_refl b
    | cons r rs ih =>
      intro b h
      simp only [driftOnlyB, Bool.and_eq_true, decide_eq_true_eq] at h
      obtain ⟨⟨h1, h2⟩, h3⟩ := h
      have hb : b ≤ baseStep b r := by
        unfold baseStep
        rw [Nat.mod_eq_of_lt (by omega : r < 65536)]
        exact adjusted_base_le b r h1 h2
      exact le_trans hb (ih (baseStep b r) h3)
  refine ⟨adjusted_base_le, fun b rs h => hrun rs b h, fun s raw h1 h2 => ?_⟩
  rw [cycleStep_base]
  unfold baseStep
  rw [Nat.mod_eq_of_lt (by omega : raw < 65536)]
  exact adjusted_base_le s.base_cnt raw h1 h2

/-- C3 (amended) instantiated at baseline 500 with samples 600 and 700. -/
theorem c3_witness :
    (500 : Nat) ≤ adjusted_base 500 600
    ∧ driftOnlyB 500 [600, 700] = true
    ∧ (500 : Nat) ≤ runBaseline 500 [600, 700]
    ∧ (500 : Nat) ≤ (cycleStep ⟨500, 0, 0, false, 0, 0⟩ 600).base_cnt :=
  ⟨c3_baseline_monotone.1 500 600 (by decide) (by decide), by decide,
   c3_baseline_monotone.2.1 500 [600, 700] (by decide),
   c3_baseline_monotone.2.2 ⟨500, 0, 0, false, 0, 0⟩ 600 (by decide) (by decide)⟩

/-! C4: baseline acquisition. -/

lemma foldl_wrap_sum (g : Nat → Nat) : ∀ (l : List Nat) (a : Nat), a < 65536 →
    l.foldl (fun acc k => (acc + g k % 65536) % 65536) a
      = (a + (l.map (fun k => g k % 65536)).sum) % 65536 := by
  intro l
  induction l with
  | nil =>
    intro a ha
    simp [Nat.mod_eq_of_lt ha]
  | cons x l ih =>
    intro a ha
    simp only [List.foldl_cons, List.map_cons, List.sum_cons]
    rw [ih ((a + g x % 65536) % 65536) (Nat.mod_lt _ (by norm_num))]
    omega

/-- C4 fails as stated: sixteen samples of 65535 sum to 1048560, whose right
shift by 4 is 65535, but the 16-bit accumulator wraps and get_base_count
returns 4095. -/
theorem c4_counterexample :
    ((List.range 16).map (fun _ => (65535 : Nat))).sum = 16 * 65535
    ∧ get_base_count (fun _ => 65535) = 4095
    ∧ Nat.shiftRight (16 * 65535) 4 = 65535
    ∧ (4095 : Nat) ≠ 65535 := by decide

/-- C4 (amended): get_base_count takes exactly sixteen measurements, sums
them in the 16-bit accumulator base_cnt, and shifts right by 4; the result is
(S mod 2^16) >> 4 for sample sum S, which equals the claimed S >> 4 whenever
the sum fits in 16 bits. -/
theorem c4_get_base_count (f : Nat → Nat) (hf : ∀ k, k < 16 → f k < 65536) :
    get_base_count f = Nat.shiftRight (((List.range 16).map f).sum % 65536) 4
    ∧ (((List.range 16).map f).sum < 65536 →
        get_base_count f = Nat.shiftRight ((List.range 16).map f).sum 4) := by
  have hmap : (List.range 16).map (fun k => f k % 65536) = (List.range 16).map f := by
    apply List.map_congr_left
    intro k hk
    exact Nat.mod_eq_of_lt (hf k (List.mem_range.mp hk))
  have hbs : base_sum f = (((List.range 16).map f).sum) % 65536 := by
    unfold base_sum
    rw [foldl_wrap_sum f (List.range 16) 0 (by norm_num), hmap]
    simp
  constructor
  · unfold get_base_count
    rw [hbs]
  · intro hS
    unfold get_base_count
    rw [hbs, Nat.mod_eq_of_lt hS]

/-- C4 (amended) instantiated at the sample sequence 100, 101, ..., 115. -/
theorem c4_witness :
    get_base_count sampleF
        = Nat.shiftRight (((List.range 16).map sampleF).sum % 65536) 4
    ∧ get_base_count sampleF
        = Nat.shiftRight ((List.range 16).map sampleF).sum 4 := by
  have h := c4_get_base_count sampleF (by decide)
  exact ⟨h.1, h.2 (by decide)⟩

/-! C6: the delta as a signed difference. -/

/-- C6 fails as stated: with baseline 0 and raw count 40000 (both within the
16-bit counter range) the stored delta is 25536, not the mathematical
difference -40000, and the raw count exceeds the baseline while the delta is
not negative. -/
theorem c6_counterexample :
    delta_cnt 0 40000 = 25536
    ∧ (0 : Int) - 40000 = -40000
    ∧ delta_cnt 0 40000 ≠ (0 : Int) - 40000
    ∧ ¬ delta_cnt 0 40000 < 0
    ∧ (0 : Nat) < 40000 := by decide

/-- C6 (amended): the stored delta is the two's-complement 16-bit reading of
BaselineCount - RawCount: it is congruent to the true difference mod 2^16,
lies in [-32768, 32767], equals the true difference exactly when that
difference fits in the signed 16-bit range, and within that range it is
negative exactly when the raw count exceeds the baseline. -/
theorem c6_delta_representation (b r : Nat) (hb : b < 65536) (hr : r < 65536) :
    (-32768 ≤ delta_cnt b r ∧ delta_cnt b r < 32768)
    ∧ delta_cnt b r % 65536 = ((b : Int) - (r : Int)) % 65536
    ∧ (-32768 ≤ (b : Int) - (r : Int) → (b : Int) - (r : Int) ≤ 32767 →
        (delta_cnt b r = (b : Int) - (r : Int) ∧ (delta_cnt b r < 0 ↔ b < r))) := by
  unfold delta_cnt toInt16 usub16
  split <;> omega

/-- C6 (amended) instantiated at baseline 500 and raw count 250. -/
theorem c6_witness :
    (-32768 ≤ delta_cnt 500 250 ∧ delta_cnt 500 250 < 32768)
    ∧ delta_cnt 500 250 % 65536 = ((500 : Int) - (250 : Int)) % 65536
    ∧ (delta_cnt 500 250 = (500 : Int) - (250 : Int)
        ∧ (delta_cnt 500 250 < 0 ↔ (500 : Nat) < 250)) := by
  have h := c6_delta_representation 500 250 (by decide) (by decide)
  exact ⟨h.1, h.2.1, h.2.2 (by decide) (by decide)⟩

/-! C7: the no-touch fixed point. -/

lemma delta_cnt_self (b : Nat) : delta_cnt b (b % 65536) = 0 := by
  unfold delta_cnt toInt16 usub16
  split <;> omega

lemma cycleStep_self (s : SensorState) :
    (cycleStep s s.base_cnt).base_cnt = s.base_cnt
      ∧ (cycleStep s s.base_cnt).key_pressed = false := by
  have hd := delta_cnt_self s.base_cnt
  constructor
  · rw [cycleStep_base]
    unfold baseStep adjusted_base
    rw [hd]
    norm_num
  · rw [cycleStep_kp, hd]
    decide

/-- C7: a cycle whose raw count equals the current baseline leaves the
baseline unchanged and reports no touch, and this persists over arbitrarily
many such cycles. -/
theorem c7_fixed_point : ∀ (s : SensorState) (n : Nat),
    (runCycles s (List.replicate n s.base_cnt)).base_cnt = s.base_cnt
    ∧ allNotTouched s (List.replicate n s.base_cnt) = true := by
  intro s n
  induction n generalizing s with
  | zero => exact ⟨rfl, rfl⟩
  | succ n ih =>
    have h := cycleStep_self s
    have ihs := ih (cycleStep s s.base_cnt)
    rw [h.1] at ihs
    constructor
    · show (runCycles (cycleStep s s.base_cnt) (List.replicate n s.base_cnt)).base_cnt
          = s.base_cnt
      exact ihs.1
    · show ((!(cycleStep s s.base_cnt).key_pressed)
          && allNotTouched (cycleStep s s.base_cnt) (List.replicate n s.base_cnt)) = true
      rw [h.2, ihs.2]
      decide

/-- C7 instantiated at baseline 500 for five cycles. -/
theorem c7_witness :
    (runCycles ⟨500, 0, 0, false, 0, 0⟩ (List.replicate 5 500)).base_cnt = 500
    ∧ allNotTouched ⟨500, 0, 0, false, 0, 0⟩ (List.replicate 5 500) = true :=
  c7_fixed_point ⟨500, 0, 0, false, 0, 0⟩ 5

/-! C9: a touched cycle leaves the baseline alone. -/

/-- C9: whenever a cycle asserts TouchState, the delta exceeded KEY_LVL and
was in particular non-negative, so the baseline adjustment did not fire and
the baseline at the end of the cycle equals the baseline at its start. -/
theorem c9_touched_keeps_base (s : SensorState) (raw : Nat)
    (h : (cycleStep s raw).key_pressed = true) :
    (cycleStep s raw).base_cnt = s.base_cnt := by
  rw [cycleStep_kp] at h
  have hd : KEY_LVL < delta_cnt s.base_cnt (raw % 65536) := of_decide_eq_true h
  rw [cycleStep_base]
  unfold baseStep adjusted_base
  rw [if_neg]
  unfold KEY_LVL at hd
  omega

/-- C9 instantiated at baseline 500 and raw count 250 (a touched cycle). -/
theorem c9_witness :
    (cycleStep ⟨500, 0, 0, false, 0, 0⟩ 250).key_pressed = true
    ∧ (cycleStep ⟨500, 0, 0, false, 0, 0⟩ 250).base_cnt = 500 :=
  ⟨by decide, c9_touched_keeps_base ⟨500, 0, 0, false, 0, 0⟩ 250 (by decide)⟩

/-! C10: no grace period at program start. -/

/-- C10: the grace-cycle counter is zero at entry to the main loop, so if the
very first cycle after baseline acquisition reports no touch, that cycle
already selects the slow divider DIVA_3 and leaves the counter at zero. -/
theorem c10_no_initial_grace :
    (∀ (f : Nat → Nat) (bcs : Nat), (initialState f bcs).cycles = 0)
    ∧ (∀ (f : Nat → Nat) (bcs raw : Nat),
        (cycleStep (initialState f bcs) raw).key_pressed = false →
        diva (cycleStep (initialState f bcs) raw).bcsctl1 = DIVA_3
        ∧ (cycleStep (initialState f bcs) raw).cycles = 0) := by
  refine ⟨fun f bcs => rfl, fun f bcs raw h => ?_⟩
  rw [cycleStep_kp] at h
  have hd : ¬ KEY_LVL < delta_cnt (initialState f bcs).base_cnt (raw % 65536) :=
    of_decide_eq_false h
  have h2 := cycleStep_idle_zero (initialState f bcs) raw hd rfl
  refine ⟨?_, h2.1⟩
  rw [h2.2]
  exact bcs_slow_diva _

/-- C10 instantiated: constant raw counts of 500 give baseline 500, and the
first cycle is untouched and selects the slow divider. -/
theorem c10_witness :
    (cycleStep (initialState constF500 0) 500).key_pressed = false
    ∧ (diva (cycleStep (initialState constF500 0) 500).bcsctl1 = DIVA_3
       ∧ (cycleStep (initialState constF500 0) 500).cycles = 0) :=
  ⟨by decide, c10_no_initial_grace.2 constF500 0 500 (by decide)⟩

/-! C5: the sample-rate controller. -/

lemma runCycles_nil (s : SensorState) : runCycles s [] = s := rfl

lemma runCycles_cons (s : SensorState) (r : Nat) (rs : List Nat) :
    runCycles s (r :: rs) = runCycles (cycleStep s r) rs := rfl

lemma runCycles_append (s : SensorState) (xs ys : List Nat) :
    runCycles s (xs ++ ys) = runCycles (runCycles s xs) ys :=
  List.foldl_append cycleStep s xs ys

lemma allNotTouched_cons (s : SensorState) (r : Nat) (rs : List Nat) :
    allNotTouched s (r :: rs)
      = ((!(cycleStep s r).key_pressed) && allNotTouched (cycleStep s r) rs) := rfl

lemma allNotTouched_append : ∀ (xs : List Nat) (s : SensorState) (ys : List Nat),
    allNotTouched s (xs ++ ys)
      = (allNotTouched s xs && allNotTouched (runCycles s xs) ys) := by
  intro xs
  induction xs with
  | nil =>
    intro s ys
    simp [allNotTouched, runCycles_nil]
  | cons r xs ih =>
    intro s ys
    rw [List.cons_append, allNotTouched_cons, ih (cycleStep s r) ys,
      allNotTouched_cons, runCycles_cons, Bool.and_assoc]

lemma diva_run_fast : ∀ (rs : List Nat) (s : SensorState),
    diva s.bcsctl1 = 0 → (rs.length : Int) ≤ s.cycles → s.cycles ≤ 20 →
    diva (runCycles s rs).bcsctl1 = 0 := by
  intro rs
  induction rs with
  | nil =>
    intro s h _ _
    exact h
  | cons r rs ih =>
    intro s h hlen hle
    rw [List.length_cons] at hlen
    push_cast at hlen
    rw [runCycles_cons]
    by_cases hd : KEY_LVL < delta_cnt s.base_cnt (r % 65536)
    · have ht := cycleStep_touched s r hd
      refine ih (cycleStep s r) ?_ ?_ ?_
      · rw [ht.2]
        exact bcs_fast_diva _
      · rw [ht.1]
        omega
      · rw [ht.1]
    · have hc : s.cycles ≠ 0 := by omega
      have hi := cycleStep_idle_pos s r hd hc
      refine ih (cycleStep s r) ?_ ?_ ?_
      · rw [hi.2]
        exact h
      · rw [hi.1]
        omega
      · rw [hi.1]
        omega

lemma cycles_noTouch_run : ∀ (rs : List Nat) (s : SensorState),
    allNotTouched s rs = true → (rs.length : Int) ≤ s.cycles →
    (runCycles s rs).cycles = s.cycles - rs.length := by
  intro rs
  induction rs with
  | nil =>
    intro s _ _
    rw [runCycles_nil]
    simp
  | cons r rs ih =>
    intro s hall hlen
    rw [List.length_cons] at hlen
    push_cast at hlen
    rw [allNotTouched_cons, Bool.and_eq_true] at hall
    have hkp : (cycleStep s r).key_pressed = false := by
      cases hx : (cycleStep s r).key_pressed
      · rfl
      · rw [hx] at hall
        exact absurd hall.1 (by decide)
    have hd : ¬ KEY_LVL < delta_cnt s.base_cnt (r % 65536) := by
      rw [cycleStep_kp] at hkp
      exact of_decide_eq_false hkp
    have hc : s.cycles ≠ 0 := by omega
    have hi := cycleStep_idle_pos s r hd hc
    rw [runCycles_cons, ih (cycleStep s r) hall.2 (by rw [hi.1]; omega), hi.1,
      List.length_cons]
    push_cast
    ring

/-- C5: on a touched cycle the controller selects the fast divider and sets
the grace counter to 20; on an untouched cycle with a positive counter it
decrements the counter and keeps the divider; when the counter is zero it
selects the slow divider and clamps at zero; hence after a touched cycle the
next 20 cycles keep the fast divider whatever their TouchState, and the 21st
consecutive untouched cycle switches to the slow divider. -/
theorem c5_sample_rate :
    (∀ (s : SensorState) (raw : Nat),
        (cycleStep s raw).key_pressed = true →
        (cycleStep s raw).cycles = 20 ∧ diva (cycleStep s raw).bcsctl1 = DIVA_0)
    ∧ (∀ (s : SensorState) (raw : Nat),
        (cycleStep s raw).key_pressed = false → s.cycles ≠ 0 →
        (cycleStep s raw).cycles = s.cycles - 1
          ∧ (cycleStep s raw).bcsctl1 = s.bcsctl1)
    ∧ (∀ (s : SensorState) (raw : Nat),
        (cycleStep s raw).key_pressed = false → s.cycles = 0 →
        (cycleStep s raw).cycles = 0 ∧ diva (cycleStep s raw).bcsctl1 = DIVA_3)
    ∧ (∀ (s : SensorState) (rs : List Nat),
        s.cycles = 20 → diva s.bcsctl1 = 0 → rs.length ≤ 20 →
        diva (runCycles s rs).bcsctl1 = 0)
    ∧ (∀ (s : SensorState) (rs : List Nat) (r : Nat),
        s.cycles = 20 → rs.length = 20 → allNotTouched s (rs ++ [r]) = true →
        diva (runCycles s (rs ++ [r])).bcsctl1 = DIVA_3) := by
  refine ⟨?_, ?_, ?_, ?_, ?_⟩
  · intro s raw h
    rw [cycleStep_kp] at h
    have hd := of_decide_eq_true h
    have ht := cycleStep_touched s raw hd
    refine ⟨ht.1, ?_⟩
    rw [ht.2]
    exact bcs_fast_diva _
  · intro s raw h hc
    rw [cycleStep_kp] at h
    exact cycleStep_idle_pos s raw (of_decide_eq_false h) hc
  · intro s raw h hc
    rw [cycleStep_kp] at h
    have hz := cycleStep_idle_zero s raw (of_decide_eq_false h) hc
    refine ⟨hz.1, ?_⟩
    rw [hz.2]
    exact bcs_slow_diva _
  · intro s rs h20 hdiva hlen
    refine diva_run_fast rs s hdiva ?_ ?_
    · rw [h20]
      omega
    · rw [h20]
  · intro s rs r h20 hlen hall
    rw [allNotTouched_append, Bool.and_eq_true] at hall
    have hle2 : (rs.length : Int) ≤ s.cycles := by omega
    have hcyc : (runCycles s rs).cycles = 0 := by
      rw [cycles_noTouch_run rs s hall.1 hle2]
      omega
    have hkp : (cycleStep (runCycles s rs) r).key_pressed = false := by
      have h1 := hall.2
      rw [allNotTouched_cons] at h1
      cases hx : (cycleStep (runCycles s rs) r).key_pressed
      · rfl
      · rw [hx] at h1
        simp at h1
    have hd : ¬ KEY_LVL < delta_cnt (runCycles s rs).base_cnt (r % 65536) := by
      rw [cycleStep_kp] at hkp
      exact of_decide_eq_false hkp
    have hz := cycleStep_idle_zero (runCycles s rs) r hd hcyc
    rw [runCycles_append]
    show diva (cycleStep (runCycles s rs) r).bcsctl1 = DIVA_3
    rw [hz.2]
    exact bcs_slow_diva _

/-- C5 instantiated: a touched cycle at baseline 500 and raw count 250 resets
the grace counter; untouched cycles at raw count 500 decrement it; after 20
untouched cycles the fast divider still holds, and the 21st untouched cycle
selects the slow divider. -/
theorem c5_witness :
    ((cycleStep ⟨500, 0, 0, false, 0, 0⟩ 250).cycles = 20
      ∧ diva (cycleStep ⟨500, 0, 0, false, 0, 0⟩ 250).bcsctl1 = DIVA_0)
    ∧ ((cycleStep ⟨500, 0, 0, false, 5, 0⟩ 500).cycles = 4
      ∧ (cycleStep ⟨500, 0, 0, false, 5, 0⟩ 500).bcsctl1 = 0)
    ∧ ((cycleStep ⟨500, 0, 0, false, 0, 0⟩ 500).cycles = 0
      ∧ diva (cycleStep ⟨500, 0, 0, false, 0, 0⟩ 500).bcsctl1 = DIVA_3)
    ∧ diva (runCycles ⟨500, 0, 0, false, 20, 0⟩ (List.replicate 20 500)).bcsctl1 = 0
    ∧ diva (runCycles ⟨500, 0, 0, false, 20, 0⟩
        (List.replicate 20 500 ++ [500])).bcsctl1 = DIVA_3 := by
  refine ⟨?_, ?_, ?_, ?_, ?_⟩
  · exact c5_sample_rate.1 ⟨500, 0, 0, false, 0, 0⟩ 250 (by decide)
  · exact c5_sample_rate.2.1 ⟨500, 0, 0, false, 5, 0⟩ 500 (by decide) (by decide)
  · exact c5_sample_rate.2.2.1 ⟨500, 0, 0, false, 0, 0⟩ 500 (by decide) (by decide)
  · exact c5_sample_rate.2.2.2.1 ⟨500, 0, 0, false, 20, 0⟩ (List.replicate 20 500)
      rfl (by decide) (by decide)
  · exact c5_sample_rate.2.2.2.2 ⟨500, 0, 0, false, 20, 0⟩ (List.replicate 20 500)
      500 rfl (by decide) (by decide)

/-! C8: the measurement routine's effect on the hardware. -/

set_option maxRecDepth 8000 in
lemma xor_mask_land_self : ∀ p < 256, (255 ^^^ p) &&& p = 0 := by decide

lemma land_after_mask (y p : Nat) (hp : p < 256) :
    (y &&& (255 ^^^ p)) &&& p = 0 := by
  rw [Nat.land_assoc, xor_mask_land_self p hp]
  simp

/-- C8 fails as stated: in the action order of measure_count the watchdog
gate timer is started (line 138) one step before the Timer_A counter is
reset to zero (line 139), so the counter reset does not precede the opening
of the gate. -/
theorem c8_counterexample :
    List.findIdx isGateStart measure_count_trace = 5
    ∧ List.findIdx isTimerReset measure_count_trace = 6
    ∧ ¬ List.findIdx isTimerReset measure_count_trace
        < List.findIdx isGateStart measure_count_trace := by decide

/-- C8 (amended): each call to measure_count rewrites the timer and capture
configuration from scratch, resets the Timer_A counter immediately after
starting the gate timer and before the low-power wait and the capture, and
before returning stops the watchdog gate timer and clears the pin's
oscillator-select bit in P2SEL2; the timer, capture, watchdog and captured
count it leaves behind do not depend on the register state it started from. -/
theorem c8_measure_count_effects (h : Regs) (pin captured : Nat) (hp : pin < 256) :
    (List.findIdx isGateStart measure_count_trace
        < List.findIdx isTimerReset measure_count_trace
      ∧ List.findIdx isTimerReset measure_count_trace
        < List.findIdx isGateWait measure_count_trace
      ∧ List.findIdx isGateWait measure_count_trace
        < List.findIdx isCapture measure_count_trace)
    ∧ (measure_count h pin captured).wdtctl = WDTPW + WDTHOLD
    ∧ (measure_count h pin captured).p2sel2 &&& pin = 0
    ∧ (measure_count h pin captured).meas_cnt = captured % 65536
    ∧ (∀ g : Regs,
        (measure_count g pin captured).ta0ctl = (measure_count h pin captured).ta0ctl
        ∧ (measure_count g pin captured).ta0cctl1
            = (measure_count h pin captured).ta0cctl1
        ∧ (measure_count g pin captured).wdtctl
            = (measure_count h pin captured).wdtctl
        ∧ (measure_count g pin captured).meas_cnt
            = (measure_count h pin captured).meas_cnt) := by
  refine ⟨by decide, rfl, ?_, rfl, fun g => ⟨rfl, rfl, rfl, rfl⟩⟩
  show (((h.p2sel2 ||| pin % 256) % 256) &&& (255 ^^^ pin % 256)) &&& pin = 0
  rw [Nat.mod_eq_of_lt hp]
  exact land_after_mask _ pin hp

/-- C8 (amended) instantiated at the touch pin with two different starting
register states. -/
theorem c8_witness :
    (measure_count ⟨0, 0, 0, 0, 0, 0, 0⟩ TOUCHPIN 12345).wdtctl = WDTPW + WDTHOLD
    ∧ (measure_count ⟨0, 0, 0, 0, 0, 0, 0⟩ TOUCHPIN 12345).p2sel2 &&& TOUCHPIN = 0
    ∧ (measure_count ⟨0, 0, 0, 0, 0, 0, 0⟩ TOUCHPIN 12345).meas_cnt = 12345 % 65536
    ∧ (measure_count ⟨9, 8, 7, 6, 5, 4, 3⟩ TOUCHPIN 12345).ta0ctl
        = (measure_count ⟨0, 0, 0, 0, 0, 0, 0⟩ TOUCHPIN 12345).ta0ctl := by
  have h := c8_measure_count_effects ⟨0, 0, 0, 0, 0, 0, 0⟩ TOUCHPIN 12345 (by decide)
  exact ⟨h.2.1, h.2.2.1, h.2.2.2.1, (h.2.2.2.2 ⟨9, 8, 7, 6, 5, 4, 3⟩).1⟩

end CapTouch
